import Mathlib

/-!
Verification of the Sparkplug B client library (spark-plug_cpp).

The definitions below are a shallow embedding of the library's C++ sources:
the protobuf payload record and `PayloadBuilder` (include/sparkplug/payload_builder.hpp,
src/payload_builder.cpp), the topic codec (src/topic.cpp), the edge-node session
(src/edge_node.cpp) and the host-observer alias resolution (include/sparkplug/subscriber.hpp).
Wall-clock reads are modelled by an explicit `now : Nat` argument; serialized protobuf
bytes are modelled by the payload record itself (the codec round-trips); the MQTT
transport is assumed to accept every publish (the success path), which is the only
path the stated properties concern.
-/

namespace Sparkplug

/-! ## Data model: the Tahu protobuf payload as used by the sources -/

/-- Sparkplug datatype tags, `include/sparkplug/datatype.hpp` (numeric values match). -/
def dtUInt64 : Nat := 8

/-- One metric of the Tahu `Payload`; only the fields the sources touch are carried.
`none` models an unset protobuf field. -/
structure Metric where
  name : Option String := none
  aliasNum : Option Nat := none
  datatype : Option Nat := none
  intValue : Option Nat := none
  longValue : Option Nat := none
  booleanValue : Option Bool := none
  stringValue : Option String := none
  timestamp : Option Nat := none
  deriving Repr, DecidableEq

/-- Protobuf accessor semantics: `metric.name()` yields the empty string when unset. -/
def Metric.nameStr (m : Metric) : String := m.name.getD ""

/-- The top-level Tahu `Payload` record. -/
structure Payload where
  timestamp : Option Nat := none
  seq : Option Nat := none
  uuid : Option String := none
  metrics : List Metric := []
  deriving Repr, DecidableEq

/-! ## PayloadBuilder (payload_builder.hpp / payload_builder.cpp) -/

/-- `PayloadBuilder` wraps a payload plus the two explicit-set flags. -/
structure PayloadBuilder where
  payload : Payload
  seq_explicitly_set : Bool
  timestamp_explicitly_set : Bool
  deriving Repr, DecidableEq

/-- The `PayloadBuilder()` constructor: stamps the current wall-clock time (ms)
into the payload-level timestamp. -/
def PayloadBuilder.create (now : Nat) : PayloadBuilder :=
  { payload := { timestamp := some now }
    seq_explicitly_set := false
    timestamp_explicitly_set := false }

/-- `detail::add_metric_to_payload` for a `uint64_t` value (the instantiation used for
`bdSeq`): appends a metric with the UInt64 tag, the value in the 64-bit slot, the
optional alias, and the metric timestamp (caller-supplied or current time). -/
def PayloadBuilder.add_metric_u64 (b : PayloadBuilder) (now : Nat) (name : String)
    (v : Nat) (a : Option Nat := none) (ts : Option Nat := none) : PayloadBuilder :=
  let m : Metric :=
    { name := if name = "" then none else some name
      aliasNum := a
      datatype := some dtUInt64
      longValue := some v
      timestamp := some (ts.getD now) }
  { b with payload := { b.payload with metrics := b.payload.metrics ++ [m] } }

/-- `set_seq`: writes the sequence field and records that it was explicitly set. -/
def PayloadBuilder.set_seq (b : PayloadBuilder) (v : Nat) : PayloadBuilder :=
  { b with payload := { b.payload with seq := some v }, seq_explicitly_set := true }

/-- `set_timestamp`: overwrites the payload timestamp and records the explicit set. -/
def PayloadBuilder.set_timestamp (b : PayloadBuilder) (ts : Nat) : PayloadBuilder :=
  { b with payload := { b.payload with timestamp := some ts },
           timestamp_explicitly_set := true }

/-- `has_seq()` returns the builder-level flag, not the protobuf field. -/
def PayloadBuilder.has_seq (b : PayloadBuilder) : Bool := b.seq_explicitly_set

/-- `build()` serializes the payload; in this embedding the bytes are the record. -/
def PayloadBuilder.build (b : PayloadBuilder) : Payload := b.payload

/-! ## Topic codec (topic.cpp) -/

inductive MessageType where
  | NBIRTH | NDEATH | DBIRTH | DDEATH | NDATA | DDATA | NCMD | DCMD | STATE
  deriving Repr, DecidableEq

/-- `message_type_to_string` (topic.cpp). -/
def messageTypeToString : MessageType → String
  | .NBIRTH => "NBIRTH"
  | .NDEATH => "NDEATH"
  | .DBIRTH => "DBIRTH"
  | .DDEATH => "DDEATH"
  | .NDATA => "NDATA"
  | .DDATA => "DDATA"
  | .NCMD => "NCMD"
  | .DCMD => "DCMD"
  | .STATE => "STATE"

/-- `parse_message_type` (topic.cpp): the fixed table, unknown strings fail. -/
def parseMessageType (s : String) : Except String MessageType :=
  if s = "NBIRTH" then .ok .NBIRTH
  else if s = "NDEATH" then .ok .NDEATH
  else if s = "DBIRTH" then .ok .DBIRTH
  else if s = "DDEATH" then .ok .DDEATH
  else if s = "NDATA" then .ok .NDATA
  else if s = "DDATA" then .ok .DDATA
  else if s = "NCMD" then .ok .NCMD
  else if s = "DCMD" then .ok .DCMD
  else if s = "STATE" then .ok .STATE
  else .error ("Unknown message type: " ++ s)

structure Topic where
  group_id : String
  message_type : MessageType
  edge_node_id : String
  device_id : String
  deriving Repr, DecidableEq

/-- Character-level splitting on a separator, the embedding of
`topic_str | std::views::split('/')`: keeps empty pieces, yields n+1 pieces
for n separators. -/
def splitChars (sep : Char) : List Char → List (List Char)
  | [] => [[]]
  | c :: cs =>
    if c = sep then [] :: splitChars sep cs
    else
      match splitChars sep cs with
      | [] => [[c]]
      | w :: ws => (c :: w) :: ws

/-- The topic string split by the slash separator. -/
def splitSlash (s : String) : List String :=
  (splitChars '/' s.data).map String.mk

/-- `Topic::to_string` (topic.cpp): STATE renders bare, others under `spBv1.0`,
the device segment only when non-empty. -/
def Topic.to_string (t : Topic) : String :=
  if t.message_type = MessageType.STATE then
    "STATE/" ++ t.edge_node_id
  else
    let base := "spBv1.0/" ++ t.group_id ++ "/" ++ messageTypeToString t.message_type
      ++ "/" ++ t.edge_node_id
    if t.device_id = "" then base else base ++ "/" ++ t.device_id

/-- `Topic::parse` (topic.cpp): split on slashes; a two-or-more segment topic whose
first segment is `STATE` is a STATE topic; otherwise at least four segments with
the `spBv1.0` namespace are required and the third segment names the type. -/
def Topic.parse (s : String) : Except String Topic :=
  let elements := splitSlash s
  if elements.length < 2 then .error "Invalid topic format"
  else if elements.getD 0 "" = "STATE" then
    .ok { group_id := ""
          message_type := .STATE
          edge_node_id := elements.getD 1 ""
          device_id := "" }
  else if elements.length < 4 ∨ elements.getD 0 "" ≠ "spBv1.0" then
    .error "Invalid Sparkplug B topic"
  else
    match parseMessageType (elements.getD 2 "") with
    | .error e => .error e
    | .ok mt =>
      .ok { group_id := elements.getD 1 ""
            message_type := mt
            edge_node_id := elements.getD 3 ""
            device_id := if 4 < elements.length then elements.getD 4 "" else "" }

/-! ## Edge-node session (edge_node.cpp)

The session state machine of `EdgeNode`. Operations return `Except String`
mirroring `std::expected<void, std::string>`; a successful publish also yields
the `Message` handed to the transport. The transport itself always accepts
(success path); wall-clock reads take `now` explicitly. -/

/-- `SEQ_NUMBER_MAX` (edge_node.cpp anonymous namespace). -/
def SEQ_NUMBER_MAX : Nat := 256

/-- Per-device publisher state (`EdgeNode::DeviceState`). -/
structure DeviceState where
  seq_num : Nat := 0
  last_birth_payload : Option Payload := none
  is_online : Bool := false
  deriving Repr, DecidableEq

/-- The configuration fields of `EdgeNode::Config` that the session logic reads. -/
structure EdgeNodeConfig where
  group_id : String
  edge_node_id : String
  data_qos : Nat := 0
  death_qos : Nat := 1
  deriving Repr, DecidableEq

/-- The mutable session state of `EdgeNode`. `has_client` models a live
`MQTTAsync` handle (`client_`); `death_payload` models `death_payload_data_`
(the serialized NDEATH stash armed as the LWT); `last_birth_payload = none`
models an empty `last_birth_payload_` byte vector. -/
structure EdgeNode where
  config : EdgeNodeConfig
  has_client : Bool := false
  seq_num : Nat := 0
  bd_seq_num : Nat := 0
  death_payload : Payload := {}
  last_birth_payload : Option Payload := none
  device_states : List (String × DeviceState) := []
  is_connected : Bool := false
  deriving Repr, DecidableEq

/-- A message handed to `MQTTAsync_sendMessage`. -/
structure Message where
  topic : Topic
  payload : Payload
  qos : Nat
  retain : Bool
  deriving Repr, DecidableEq

/-- `device_states_.find(id)` on the registry association list. -/
def findDevice (l : List (String × DeviceState)) (k : String) : Option DeviceState :=
  (l.find? (fun p => p.1 = k)).map Prod.snd

/-- `device_states_[id] = d`: overwrite the entry or append a fresh one
(`operator[]` default-constructs, then every field is assigned). -/
def setDevice (l : List (String × DeviceState)) (k : String) (d : DeviceState) :
    List (String × DeviceState) :=
  if (l.find? (fun p => p.1 = k)).isSome then
    l.map (fun p => if p.1 = k then (k, d) else p)
  else l ++ [(k, d)]

/-- In-place field update of an existing registry entry; absent keys unchanged. -/
def updateDevice (l : List (String × DeviceState)) (k : String)
    (f : DeviceState → DeviceState) : List (String × DeviceState) :=
  l.map (fun p => if p.1 = k then (p.1, f p.2) else p)

/-- The loop in `EdgeNode::publish_birth` scanning for a metric named `bdSeq`. -/
def bdSeqPresent (ms : List Metric) : Bool :=
  ms.any (fun m => m.nameStr = "bdSeq")

/-- The loop in `EdgeNode::rebirth`: `set_long_value` on the first metric named
`bdSeq` (datatype and the other slots untouched), then stop. -/
def setFirstBdSeqLong : List Metric → Nat → List Metric
  | [], _ => []
  | m :: ms, v =>
    if m.nameStr = "bdSeq" then { m with longValue := some v } :: ms
    else m :: setFirstBdSeqLong ms v

/-- The `bdSeq` value a payload carries: first metric named `bdSeq`, read through
`long_value()` (0 when unset), as the subscriber extracts it. -/
def Payload.bdSeqOf (p : Payload) : Option Nat :=
  (p.metrics.find? (fun m => m.nameStr = "bdSeq")).map (fun m => m.longValue.getD 0)

/-- `EdgeNode::connect` success path: create the client, increment `bd_seq_num_`
for the new session, build the NDEATH payload with one `bdSeq` metric equal to the
new value, arm it as the LWT, and mark connected. -/
def EdgeNode.connect (n : EdgeNode) (now : Nat) : EdgeNode :=
  let bd := n.bd_seq_num + 1
  let dp := ((PayloadBuilder.create now).add_metric_u64 now "bdSeq" bd).build
  { n with has_client := true, bd_seq_num := bd, death_payload := dp,
           is_connected := true }

/-- `EdgeNode::disconnect`: requires a live client; flips `is_connected_` off. -/
def EdgeNode.disconnect (n : EdgeNode) : Except String EdgeNode :=
  if !n.has_client then .error "Not connected"
  else .ok { n with is_connected := false }

/-- `EdgeNode::publish_birth`: requires Connected; forces `seq = 0`; appends a
`bdSeq` metric (UInt64, `bd_seq_num_`) only when none is present; publishes the
NBIRTH non-retained at the data QoS; stashes the bytes and zeroes `seq_num_`. -/
def EdgeNode.publish_birth (n : EdgeNode) (b : PayloadBuilder) :
    Except String (EdgeNode × Message) :=
  if !n.is_connected then .error "Not connected"
  else
    let b := b.set_seq 0
    let b :=
      if bdSeqPresent b.payload.metrics then b
      else { b with payload := { b.payload with metrics := b.payload.metrics ++
               [{ name := some "bdSeq", datatype := some dtUInt64,
                  longValue := some n.bd_seq_num }] } }
    let pd := b.build
    let msg : Message :=
      { topic := { group_id := n.config.group_id, message_type := .NBIRTH,
                   edge_node_id := n.config.edge_node_id, device_id := "" }
        payload := pd, qos := n.config.data_qos, retain := false }
    .ok ({ n with last_birth_payload := some pd, seq_num := 0 }, msg)

/-- `EdgeNode::publish_data`: requires Connected only; advances
`seq_num_ = (seq_num_ + 1) % 256` unconditionally and stamps it when the caller
did not set a seq; publishes the NDATA non-retained. -/
def EdgeNode.publish_data (n : EdgeNode) (b : PayloadBuilder) :
    Except String (EdgeNode × Message) :=
  if !n.is_connected then .error "Not connected"
  else
    let s := (n.seq_num + 1) % SEQ_NUMBER_MAX
    let b := if b.has_seq then b else b.set_seq s
    let msg : Message :=
      { topic := { group_id := n.config.group_id, message_type := .NDATA,
                   edge_node_id := n.config.edge_node_id, device_id := "" }
        payload := b.build, qos := n.config.data_qos, retain := false }
    .ok ({ n with seq_num := s }, msg)

/-- `EdgeNode::publish_death`: requires Connected; publishes the stashed NDEATH
bytes at the data QoS, then disconnects. -/
def EdgeNode.publish_death (n : EdgeNode) : Except String (EdgeNode × Message) :=
  if !n.is_connected then .error "Not connected"
  else
    let msg : Message :=
      { topic := { group_id := n.config.group_id, message_type := .NDEATH,
                   edge_node_id := n.config.edge_node_id, device_id := "" }
        payload := n.death_payload, qos := n.config.data_qos, retain := false }
    match n.disconnect with
    | .error e => .error e
    | .ok n1 => .ok (n1, msg)

/-- `EdgeNode::rebirth`: requires Connected and a stashed birth; re-parses the
stash, writes `bd_seq_num_ + 1` into the first `bdSeq` metric, forces `seq = 0`,
re-stashes; then disconnect, reconnect (which increments `bd_seq_num_` and arms
the new LWT), publish the updated NBIRTH and zero `seq_num_`. -/
def EdgeNode.rebirth (n : EdgeNode) (now : Nat) : Except String (EdgeNode × Message) :=
  if !n.is_connected then .error "Not connected"
  else
    match n.last_birth_payload with
    | none => .error "No previous birth payload stored"
    | some pp =>
      let new_bdseq := n.bd_seq_num + 1
      let pp := { pp with metrics := setFirstBdSeqLong pp.metrics new_bdseq,
                          seq := some 0 }
      let n := { n with last_birth_payload := some pp }
      match n.disconnect with
      | .error e => .error e
      | .ok n1 =>
        let n2 := n1.connect now
        let msg : Message :=
          { topic := { group_id := n.config.group_id, message_type := .NBIRTH,
                       edge_node_id := n.config.edge_node_id, device_id := "" }
            payload := pp, qos := n.config.data_qos, retain := false }
        .ok ({ n2 with seq_num := 0 }, msg)

/-- `EdgeNode::publish_device_birth`: requires Connected and a prior NBIRTH;
forces payload `seq = 0`; publishes the DBIRTH; then stores the device entry with
`seq_num = 0`, the DBIRTH bytes and `is_online = true`. -/
def EdgeNode.publish_device_birth (n : EdgeNode) (device_id : String)
    (b : PayloadBuilder) : Except String (EdgeNode × Message) :=
  if !n.is_connected then .error "Not connected"
  else if n.last_birth_payload.isNone then .error "Must publish NBIRTH before DBIRTH"
  else
    let b := b.set_seq 0
    let pd := b.build
    let msg : Message :=
      { topic := { group_id := n.config.group_id, message_type := .DBIRTH,
                   edge_node_id := n.config.edge_node_id, device_id := device_id }
        payload := pd, qos := n.config.data_qos, retain := false }
    let ds : DeviceState :=
      { seq_num := 0, last_birth_payload := some pd, is_online := true }
    .ok ({ n with device_states := setDevice n.device_states device_id ds }, msg)

/-- `EdgeNode::publish_device_data`: requires Connected and an online registry
entry for the device; advances that device's own counter
`(seq_num + 1) % 256` and stamps it when the caller did not set a seq. -/
def EdgeNode.publish_device_data (n : EdgeNode) (device_id : String)
    (b : PayloadBuilder) : Except String (EdgeNode × Message) :=
  if !n.is_connected then .error "Not connected"
  else
    match findDevice n.device_states device_id with
    | none =>
      .error ("Must publish DBIRTH for device '" ++ device_id ++ "' before DDATA")
    | some ds =>
      if !ds.is_online then
        .error ("Must publish DBIRTH for device '" ++ device_id ++ "' before DDATA")
      else
        let s := (ds.seq_num + 1) % SEQ_NUMBER_MAX
        let b := if b.has_seq then b else b.set_seq s
        let msg : Message :=
          { topic := { group_id := n.config.group_id, message_type := .DDATA,
                       edge_node_id := n.config.edge_node_id, device_id := device_id }
            payload := b.build, qos := n.config.data_qos, retain := false }
        .ok ({ n with device_states :=
                 updateDevice n.device_states device_id (fun d => { d with seq_num := s }) },
             msg)

/-- `EdgeNode::publish_device_death`: requires Connected and a known device;
publishes a fresh empty-metrics payload (no seq stamped) on the DDEATH topic and
flips the entry's `is_online` to false, keeping the entry. -/
def EdgeNode.publish_device_death (n : EdgeNode) (device_id : String) (now : Nat) :
    Except String (EdgeNode × Message) :=
  if !n.is_connected then .error "Not connected"
  else
    match findDevice n.device_states device_id with
    | none => .error ("Unknown device: '" ++ device_id ++ "'")
    | some _ =>
      let msg : Message :=
        { topic := { group_id := n.config.group_id, message_type := .DDEATH,
                     edge_node_id := n.config.edge_node_id, device_id := device_id }
          payload := (PayloadBuilder.create now).build
          qos := n.config.data_qos, retain := false }
      .ok ({ n with device_states :=
               updateDevice n.device_states device_id (fun d => { d with is_online := false }) },
           msg)

/-! ## Host-observer alias resolution (subscriber.hpp)

Modelled from the spec: the alias-table capture and `get_metric_name` are declared
in `include/sparkplug/subscriber.hpp` (the `alias_map` fields of `NodeState` /
`DeviceState` and the four-argument `get_metric_name`) and called from
`src/c_bindings.cpp`, but their definitions are absent from the sources — the
`src/subscriber.cpp` present is a stale revision keyed by node id only, without
alias tables. Per the spec (§4.6): on NBIRTH (seq must be 0, a `bdSeq` metric must
be present) the node state records bd_seq, last_seq 0, online, birth_received,
birth_timestamp and an alias_table built from the metrics carrying both name and
alias; DBIRTH requires the node's birth and upserts the device entry with its own
alias_table; `get_metric_name(group, edge_node, device_id, alias)` resolves
through the appropriate table, or yields nothing. -/

/-- Modelled from the spec: the alias table built from a birth payload's metrics —
exactly those carrying both a name and an alias. -/
def aliasTable (ms : List Metric) : List (Nat × String) :=
  ms.filterMap (fun m =>
    match m.aliasNum, m.name with
    | some a, some nm => some (a, nm)
    | _, _ => none)

/-- Alias lookup in a captured table. -/
def lookupAlias (l : List (Nat × String)) (a : Nat) : Option String :=
  (l.find? (fun p => p.1 = a)).map Prod.snd

/-- Modelled from the spec: observer-side device state (`Subscriber::DeviceState`). -/
structure SubDeviceState where
  is_online : Bool := false
  last_seq : Nat := 255
  birth_received : Bool := false
  alias_map : List (Nat × String) := []
  deriving Repr, DecidableEq

/-- Modelled from the spec: observer-side node state (`Subscriber::NodeState`). -/
structure SubNodeState where
  is_online : Bool := false
  last_seq : Nat := 255
  bd_seq : Nat := 0
  birth_timestamp : Nat := 0
  birth_received : Bool := false
  devices : List (String × SubDeviceState) := []
  alias_map : List (Nat × String) := []
  deriving Repr, DecidableEq

/-- Modelled from the spec: the observer, with node states keyed by
(group_id, edge_node_id) as `Subscriber::NodeKey` declares. -/
structure Subscriber where
  node_states : List ((String × String) × SubNodeState) := []
  deriving Repr, DecidableEq

def findNode (l : List ((String × String) × SubNodeState)) (k : String × String) :
    Option SubNodeState :=
  (l.find? (fun p => p.1 = k)).map Prod.snd

def setNode (l : List ((String × String) × SubNodeState)) (k : String × String)
    (v : SubNodeState) : List ((String × String) × SubNodeState) :=
  if (l.find? (fun p => p.1 = k)).isSome then
    l.map (fun p => if p.1 = k then (k, v) else p)
  else l ++ [(k, v)]

def findSubDevice (l : List (String × SubDeviceState)) (k : String) :
    Option SubDeviceState :=
  (l.find? (fun p => p.1 = k)).map Prod.snd

def setSubDevice (l : List (String × SubDeviceState)) (k : String)
    (v : SubDeviceState) : List (String × SubDeviceState) :=
  if (l.find? (fun p => p.1 = k)).isSome then
    l.map (fun p => if p.1 = k then (k, v) else p)
  else l ++ [(k, v)]

/-- Modelled from the spec: processing of a birth message by the observer's
validator. NBIRTH: reject when a stamped seq differs from 0 or no `bdSeq` metric
exists; otherwise replace the node's state fields and rebuild its alias_table
from this latest birth. DBIRTH: require the node's birth_received; upsert the
device entry and rebuild its alias_table likewise. Other types unhandled here. -/
def Subscriber.process_birth (s : Subscriber) (t : Topic) (p : Payload) : Subscriber :=
  let key := (t.group_id, t.edge_node_id)
  match t.message_type with
  | .NBIRTH =>
    if p.seq.isSome ∧ p.seq ≠ some 0 then s
    else
      match p.bdSeqOf with
      | none => s
      | some bd =>
        let prev := (findNode s.node_states key).getD {}
        let st : SubNodeState :=
          { prev with is_online := true, last_seq := 0, bd_seq := bd,
                      birth_timestamp := p.timestamp.getD 0, birth_received := true,
                      alias_map := aliasTable p.metrics }
        { s with node_states := setNode s.node_states key st }
  | .DBIRTH =>
    match findNode s.node_states key with
    | none => s
    | some st =>
      if !st.birth_received then s
      else
        let ds : SubDeviceState :=
          { is_online := true, last_seq := 0, birth_received := true,
            alias_map := aliasTable p.metrics }
        let st := { st with devices := setSubDevice st.devices t.device_id ds }
        { s with node_states := setNode s.node_states key st }
  | _ => s

/-- Modelled from the spec: `Subscriber::get_metric_name(group, edge_node,
device_id, alias)` — the node's table when `device_id` is empty, the device's
table otherwise; nothing when the state or alias is unknown. -/
def Subscriber.get_metric_name (s : Subscriber) (group_id edge_node_id device_id : String)
    (a : Nat) : Option String :=
  match findNode s.node_states (group_id, edge_node_id) with
  | none => none
  | some st =>
    if device_id = "" then lookupAlias st.alias_map a
    else
      match findSubDevice st.devices device_id with
      | none => none
      | some ds => lookupAlias ds.alias_map a

/-! ## Derived runs used by the stated properties -/

/-- A string free of the topic separator. -/
def noSlash (s : String) : Prop := ∀ c ∈ s.data, c ≠ '/'

instance (s : String) : Decidable (noSlash s) := by
  unfold noSlash; infer_instance

/-- An edge node as constructed (`EdgeNode::EdgeNode(Config)`): counters zero, no
client, no stash, disconnected. -/
def freshNode (g e : String) : EdgeNode :=
  { config := { group_id := g, edge_node_id := e } }

/-- One caller step of the public mutating `PayloadBuilder` interface. -/
inductive BuilderOp where
  | addU64 (name : String) (v : Nat) (a : Option Nat) (ts : Option Nat)
  | setSeq (v : Nat)
  | setTs (t : Nat)
  deriving Repr, DecidableEq

def applyOp (now : Nat) (b : PayloadBuilder) : BuilderOp → PayloadBuilder
  | .addU64 name v a ts => b.add_metric_u64 now name v a ts
  | .setSeq v => b.set_seq v
  | .setTs t => b.set_timestamp t

def applyOps (now : Nat) (b : PayloadBuilder) (ops : List BuilderOp) : PayloadBuilder :=
  ops.foldl (applyOp now) b

/-- One `publish_data` call on a fresh builder (the caller never pre-sets seq),
recording the stamped wire seq; an error leaves the state and records nothing. -/
def stepData (now : Nat) (x : EdgeNode × Option Nat) : EdgeNode × Option Nat :=
  match x.1.publish_data (PayloadBuilder.create now) with
  | .ok (n1, msg) => (n1, msg.payload.seq)
  | .error _ => (x.1, none)

/-- N successive `publish_data` calls on fresh builders; the second component is
the seq stamped on the N-th (latest) NDATA. -/
def iterData (now : Nat) (n : EdgeNode) : Nat → EdgeNode × Option Nat
  | 0 => (n, none)
  | k + 1 => stepData now (iterData now n k)

/-- The run the shared-counter property concerns: connect, NBIRTH, DBIRTH, NDATA,
DDATA, each from a fresh builder with no caller-set seq; yields the wire seq of
the DBIRTH, NDATA and DDATA in order. -/
def deviceSeqTrace : Option (Option Nat × Option Nat × Option Nat) :=
  let n1 := (freshNode "G" "N").connect 0
  ((n1.publish_birth (PayloadBuilder.create 0)).toOption.bind fun r1 =>
    ((r1.1.publish_device_birth "D" (PayloadBuilder.create 0)).toOption.bind fun r2 =>
      ((r2.1.publish_data (PayloadBuilder.create 0)).toOption.bind fun r3 =>
        ((r3.1.publish_device_data "D" (PayloadBuilder.create 0)).toOption.map fun r4 =>
          (r2.2.payload.seq, r3.2.payload.seq, r4.2.payload.seq)))))

/-! ## Topic codec lemmas -/

theorem splitChars_no_sep (sep : Char) (l : List Char) (h : ∀ c ∈ l, c ≠ sep) :
    splitChars sep l = [l] := by
  induction l with
  | nil => rfl
  | cons c cs ih =>
    have hc : c ≠ sep := h c (List.mem_cons_self c cs)
    have ih' := ih (fun x hx => h x (List.mem_cons_of_mem c hx))
    simp [splitChars, hc, ih']

theorem splitChars_sep_cons (sep : Char) (a b : List Char) (h : ∀ c ∈ a, c ≠ sep) :
    splitChars sep (a ++ sep :: b) = a :: splitChars sep b := by
  induction a with
  | nil => simp [splitChars]
  | cons c a' ih =>
    have hc : c ≠ sep := h c (List.mem_cons_self c a')
    have ih' := ih (fun x hx => h x (List.mem_cons_of_mem c hx))
    simp [splitChars, hc, ih']

theorem string_mk_data (s : String) : String.mk s.data = s := rfl

theorem splitSlash_state_form (e : String) (he : noSlash e) :
    splitSlash ("STATE/" ++ e) = ["STATE", e] := by
  unfold splitSlash
  have hdata : ("STATE/" ++ e).data = "STATE".data ++ '/' :: e.data := by
    have h1 : ("STATE/" : String).data = "STATE".data ++ ['/'] := by decide
    simp [String.data_append, h1]
  rw [hdata, splitChars_sep_cons _ _ _ (by decide), splitChars_no_sep _ _ he]
  simp [string_mk_data]

theorem splitSlash_four (g ty e : String) (hg : noSlash g) (hty : noSlash ty)
    (he : noSlash e) :
    splitSlash ("spBv1.0/" ++ g ++ "/" ++ ty ++ "/" ++ e) = ["spBv1.0", g, ty, e] := by
  unfold splitSlash
  have hdata : ("spBv1.0/" ++ g ++ "/" ++ ty ++ "/" ++ e).data
      = "spBv1.0".data ++ '/' :: (g.data ++ '/' :: (ty.data ++ '/' :: e.data)) := by
    have h1 : ("spBv1.0/" : String).data = "spBv1.0".data ++ ['/'] := by decide
    have h2 : ("/" : String).data = ['/'] := by decide
    simp [String.data_append, h1, h2]
  rw [hdata, splitChars_sep_cons _ _ _ (by decide), splitChars_sep_cons _ _ _ hg,
      splitChars_sep_cons _ _ _ hty, splitChars_no_sep _ _ he]
  simp [string_mk_data]

theorem splitSlash_five (g ty e d : String) (hg : noSlash g) (hty : noSlash ty)
    (he : noSlash e) (hd : noSlash d) :
    splitSlash ("spBv1.0/" ++ g ++ "/" ++ ty ++ "/" ++ e ++ "/" ++ d)
      = ["spBv1.0", g, ty, e, d] := by
  unfold splitSlash
  have hdata : ("spBv1.0/" ++ g ++ "/" ++ ty ++ "/" ++ e ++ "/" ++ d).data
      = "spBv1.0".data ++ '/' ::
          (g.data ++ '/' :: (ty.data ++ '/' :: (e.data ++ '/' :: d.data))) := by
    have h1 : ("spBv1.0/" : String).data = "spBv1.0".data ++ ['/'] := by decide
    have h2 : ("/" : String).data = ['/'] := by decide
    simp [String.data_append, h1, h2]
  rw [hdata, splitChars_sep_cons _ _ _ (by decide), splitChars_sep_cons _ _ _ hg,
      splitChars_sep_cons _ _ _ hty, splitChars_sep_cons _ _ _ he,
      splitChars_no_sep _ _ hd]
  simp [string_mk_data]

theorem messageTypeToString_noSlash (mt : MessageType) :
    noSlash (messageTypeToString mt) := by
  cases mt <;> decide

theorem parseMessageType_round (mt : MessageType) :
    parseMessageType (messageTypeToString mt) = .ok mt := by
  cases mt <;> rfl

/-- C8: every well-formed Topic record (fields free of the separator, non-empty
edge node, empty group and device exactly for STATE) survives the
render-then-parse round trip unchanged. -/
theorem topic_round_trip (t : Topic)
    (hg : noSlash t.group_id) (he : noSlash t.edge_node_id) (hd : noSlash t.device_id)
    (hne : t.edge_node_id ≠ "")
    (hstate : t.message_type = .STATE → t.group_id = "" ∧ t.device_id = "")
    (hnonstate : t.message_type ≠ .STATE → t.group_id ≠ "") :
    Topic.parse t.to_string = .ok t := by
  obtain ⟨g, mt, e, d⟩ := t
  simp only at hg he hd hne hstate hnonstate
  by_cases hmt : mt = MessageType.STATE
  · subst hmt
    obtain ⟨hg0, hd0⟩ := hstate rfl
    subst hg0; subst hd0
    have hts : Topic.to_string
        { group_id := "", message_type := .STATE, edge_node_id := e, device_id := "" }
        = "STATE/" ++ e := by
      simp [Topic.to_string]
    rw [hts]
    unfold Topic.parse
    rw [splitSlash_state_form e he]
    simp
  · by_cases hdev : d = ""
    · subst hdev
      have hts : Topic.to_string
          { group_id := g, message_type := mt, edge_node_id := e, device_id := "" }
          = "spBv1.0/" ++ g ++ "/" ++ messageTypeToString mt ++ "/" ++ e := by
        simp [Topic.to_string, hmt]
      rw [hts]
      unfold Topic.parse
      rw [splitSlash_four g (messageTypeToString mt) e hg
          (messageTypeToString_noSlash mt) he]
      simp [parseMessageType_round]
    · have hts : Topic.to_string
          { group_id := g, message_type := mt, edge_node_id := e, device_id := d }
          = "spBv1.0/" ++ g ++ "/" ++ messageTypeToString mt ++ "/" ++ e ++ "/" ++ d := by
        simp [Topic.to_string, hmt, hdev]
      rw [hts]
      unfold Topic.parse
      rw [splitSlash_five g (messageTypeToString mt) e d hg
          (messageTypeToString_noSlash mt) he hd]
      simp [parseMessageType_round]

/-- C8 witness: the round trip evaluated on a concrete node-level topic. -/
theorem topic_round_trip_witness :
    Topic.parse (Topic.to_string
        { group_id := "Energy", message_type := .NBIRTH,
          edge_node_id := "Gateway01", device_id := "" })
      = .ok { group_id := "Energy", message_type := .NBIRTH,
              edge_node_id := "Gateway01", device_id := "" } :=
  topic_round_trip _ (by decide) (by decide) (by decide) (by decide)
    (by intro h; cases h) (by intro _; decide)

/-! ## Sequence-counter behaviour of the device APIs -/

/-- C1: evaluation of the code at the failing run. After NBIRTH the code stamps
the DBIRTH with seq 0 (not the next slot of the node counter), stamps the next
NDATA with the node counter's 1, and stamps the following DDATA with the
device's own counter at 1 — a second, per-device 0–255 wire sequence, so the
NBIRTH, DBIRTH, NDATA, DDATA stamps are 0, 0, 1, 1 instead of one shared
0, 1, 2, 3 sequence. -/
theorem device_seq_uses_per_device_counter :
    deviceSeqTrace = some (some 0, some 1, some 1) := by
  decide

/-! ## publish_data precondition (C5) -/

/-- C5 counterexample: a session that connected and never published a birth
still gets `Except.ok` from `publish_data` — an NDATA stamped with seq 1 is
published, where the claim requires an error and no publication. -/
theorem publish_data_before_birth_succeeds :
    (((freshNode "G" "N").connect 0).publish_data (PayloadBuilder.create 0)).toOption.map
        (fun r => (r.2.topic.message_type, r.2.payload.seq))
      = some (MessageType.NDATA, some 1) := by
  decide

/-- C5 amended: `publish_data` requires only the Connected state — it succeeds
exactly when the session is connected, with no check that an NBIRTH was sent in
the current session. -/
theorem publish_data_requires_connected_only (n : EdgeNode) (b : PayloadBuilder) :
    (n.publish_data b).isOk = n.is_connected := by
  unfold EdgeNode.publish_data
  cases h : n.is_connected <;> simp [h, Except.isOk, Except.toBool]

/-! ## publish_death (C6) -/

/-- C6 counterexample: after a first successful `publish_death` (which
disconnects), an immediate second call returns the `Not connected` error rather
than success. -/
theorem publish_death_second_call_errors :
    ((((freshNode "G" "N").connect 0).publish_death).toOption.map
        (fun r => r.1.publish_death))
      = some (Except.error "Not connected") := by
  rfl

/-- C6 amended: a first `publish_death` on a connected session with a live
client publishes the stashed NDEATH bytes on the NDEATH topic and disconnects;
a second call immediately afterwards returns the `Not connected` error (the
operation is not idempotent). -/
theorem publish_death_once_then_error (n : EdgeNode)
    (hc : n.is_connected = true) (hcl : n.has_client = true) :
    n.publish_death = Except.ok ({ n with is_connected := false },
      { topic := { group_id := n.config.group_id, message_type := .NDEATH,
                   edge_node_id := n.config.edge_node_id, device_id := "" }
        payload := n.death_payload, qos := n.config.data_qos, retain := false })
    ∧ EdgeNode.publish_death { n with is_connected := false }
        = Except.error "Not connected" := by
  unfold EdgeNode.publish_death EdgeNode.disconnect
  simp [hc, hcl]

/-- C6 witness: the amended statement evaluated on a freshly connected node. -/
theorem publish_death_once_then_error_witness :
    ((freshNode "G" "N").connect 0).publish_death
        = Except.ok ({ (freshNode "G" "N").connect 0 with is_connected := false },
          { topic := { group_id := ((freshNode "G" "N").connect 0).config.group_id,
                       message_type := .NDEATH,
                       edge_node_id := ((freshNode "G" "N").connect 0).config.edge_node_id,
                       device_id := "" }
            payload := ((freshNode "G" "N").connect 0).death_payload,
            qos := ((freshNode "G" "N").connect 0).config.data_qos, retain := false })
    ∧ EdgeNode.publish_death { (freshNode "G" "N").connect 0 with is_connected := false }
        = Except.error "Not connected" :=
  publish_death_once_then_error ((freshNode "G" "N").connect 0) (by decide) (by decide)

/-! ## publish_birth and bdSeq (C2) -/

/-- C2 counterexample: when the caller's payload already carries a `bdSeq`
metric (value 999), `publish_birth` publishes it unchanged: the NBIRTH's bdSeq
is 999 while the LWT NDEATH armed at connect carries bdSeq 1. -/
theorem publish_birth_keeps_caller_bdseq :
    ((((freshNode "G" "N").connect 0).publish_birth
        ((PayloadBuilder.create 0).add_metric_u64 0 "bdSeq" 999)).toOption.map
      (fun r => (r.2.payload.bdSeqOf, r.1.death_payload.bdSeqOf)))
      = some (some 999, some 1) := by
  decide

/-- C2 amended: when the caller's payload contains no metric named `bdSeq`,
every successful `publish_birth` emits an NBIRTH with exactly one `bdSeq` metric
of datatype UInt64 whose value equals the session's `bd_seq_num` — the value the
LWT NDEATH was armed with at the most recent connect — and the operation leaves
`bd_seq_num`, the armed NDEATH and the connected flag unchanged, so the same
holds for a second `publish_birth` with no intervening reconnect. When the
caller supplied `bdSeq` metrics itself, the payload is published unchanged. -/
theorem publish_birth_inserts_bdseq (n : EdgeNode) (b : PayloadBuilder)
    (hc : n.is_connected = true)
    (harm : n.death_payload.bdSeqOf = some n.bd_seq_num)
    (hnb : ∀ m ∈ b.payload.metrics, m.nameStr ≠ "bdSeq") :
    ∃ n1 msg, n.publish_birth b = .ok (n1, msg)
      ∧ msg.payload.metrics.filter (fun m => m.nameStr = "bdSeq")
          = [{ name := some "bdSeq", datatype := some dtUInt64,
               longValue := some n.bd_seq_num }]
      ∧ msg.payload.bdSeqOf = n.death_payload.bdSeqOf
      ∧ n1.death_payload = n.death_payload
      ∧ n1.bd_seq_num = n.bd_seq_num
      ∧ n1.is_connected = true := by
  have hpres : bdSeqPresent b.payload.metrics = false := by
    unfold bdSeqPresent
    simp only [List.any_eq_false, decide_eq_true_eq]
    exact hnb
  have hfind : b.payload.metrics.find? (fun m => m.nameStr = "bdSeq") = none := by
    rw [List.find?_eq_none]
    intro m hm
    simp only [decide_eq_true_eq]
    exact hnb m hm
  have hrun : n.publish_birth b = Except.ok
      (({ n with
          last_birth_payload := some ({ b.payload with
            seq := some 0
            metrics := b.payload.metrics ++
              [{ name := some "bdSeq", datatype := some dtUInt64,
                 longValue := some n.bd_seq_num }] })
          seq_num := 0 } : EdgeNode),
       ({ topic := { group_id := n.config.group_id, message_type := .NBIRTH,
                     edge_node_id := n.config.edge_node_id, device_id := "" }
          payload := { b.payload with
            seq := some 0
            metrics := b.payload.metrics ++
              [{ name := some "bdSeq", datatype := some dtUInt64,
                 longValue := some n.bd_seq_num }] }
          qos := n.config.data_qos, retain := false } : Message)) := by
    unfold EdgeNode.publish_birth
    rw [hc]
    simp [PayloadBuilder.set_seq, PayloadBuilder.build, hpres]
  refine ⟨_, _, hrun, ?_, ?_, rfl, rfl, hc⟩
  · show List.filter _ (b.payload.metrics ++
        [{ name := some "bdSeq", datatype := some dtUInt64,
           longValue := some n.bd_seq_num }]) = _
    rw [List.filter_append]
    have h1 : b.payload.metrics.filter (fun m => m.nameStr = "bdSeq") = [] := by
      rw [List.filter_eq_nil_iff]
      intro m hm
      simp only [decide_eq_true_eq]
      exact hnb m hm
    rw [h1]
    rfl
  · rw [harm]
    show (List.find? _ (b.payload.metrics ++
        [{ name := some "bdSeq", datatype := some dtUInt64,
           longValue := some n.bd_seq_num }])).map _ = _
    rw [List.find?_append, hfind]
    rfl

/-- C2 witness: the amended statement evaluated on a freshly connected node and
a fresh builder (no caller metrics). -/
theorem publish_birth_inserts_bdseq_witness :
    ((freshNode "G" "N").connect 0).is_connected = true
    ∧ ((freshNode "G" "N").connect 0).death_payload.bdSeqOf
        = some ((freshNode "G" "N").connect 0).bd_seq_num
    ∧ (∀ m ∈ (PayloadBuilder.create 0).payload.metrics, m.nameStr ≠ "bdSeq")
    ∧ ∃ n1 msg, ((freshNode "G" "N").connect 0).publish_birth (PayloadBuilder.create 0)
          = .ok (n1, msg)
        ∧ msg.payload.metrics.filter (fun m => m.nameStr = "bdSeq")
            = [{ name := some "bdSeq", datatype := some dtUInt64,
                 longValue := some ((freshNode "G" "N").connect 0).bd_seq_num }]
        ∧ msg.payload.bdSeqOf = ((freshNode "G" "N").connect 0).death_payload.bdSeqOf
        ∧ n1.death_payload = ((freshNode "G" "N").connect 0).death_payload
        ∧ n1.bd_seq_num = ((freshNode "G" "N").connect 0).bd_seq_num
        ∧ n1.is_connected = true :=
  ⟨rfl, rfl, by decide,
   publish_birth_inserts_bdseq ((freshNode "G" "N").connect 0)
     (PayloadBuilder.create 0) rfl rfl (by decide)⟩

/-! ## rebirth (C3) -/

theorem setFirstBdSeqLong_append (ms : List Metric) (bd : Metric) (v : Nat)
    (h : ∀ m ∈ ms, m.nameStr ≠ "bdSeq") (hbd : bd.nameStr = "bdSeq") :
    setFirstBdSeqLong (ms ++ [bd]) v = ms ++ [{ bd with longValue := some v }] := by
  induction ms with
  | nil => simp [setFirstBdSeqLong, hbd]
  | cons m ms ih =>
    have hm : m.nameStr ≠ "bdSeq" := h m (List.mem_cons_self m ms)
    have ih' := ih (fun x hx => h x (List.mem_cons_of_mem m hx))
    simp [setFirstBdSeqLong, hm, ih']

/-- C3 counterexample: when the caller pre-set its own `bdSeq` metric (999) in
the NBIRTH, `rebirth` writes `bd_seq_num_ + 1` into the stashed birth and
publishes bdSeq 2 — not one greater than the 999 the previous NBIRTH carried —
so the claim as stated fails at this input. -/
theorem rebirth_bdseq_not_previous_plus_one :
    ((((freshNode "G" "N").connect 0).publish_birth
        ((PayloadBuilder.create 0).add_metric_u64 0 "bdSeq" 999)).toOption.bind
      (fun r1 => (r1.1.rebirth 1).toOption.map
        (fun r2 => (r1.2.payload.bdSeqOf, r2.2.payload.bdSeqOf))))
      = some (some 999, some 2)
    ∧ (some 2 : Option Nat) ≠ (some 999 : Option Nat).map (fun x => x + 1) :=
  ⟨by decide, by decide⟩

/-- C3 amended: for a session whose previous NBIRTH carries the
library-inserted bdSeq (the caller's birth payload contained no `bdSeq`
metric), each successful `rebirth` increments the session's `bd_seq_num` by
exactly 1 and resets the seq counter to 0: the rebirth NBIRTH carries a bdSeq
exactly one greater than the bdSeq of the previous NBIRTH and `seq = 0`. (When
the caller pre-set its own bdSeq, rebirth still publishes the incremented
session counter, not the caller's value plus one.) -/
theorem rebirth_increments_bdseq (n0 : EdgeNode) (b : PayloadBuilder)
    (t0 t1 : Nat) (n2 n3 : EdgeNode) (bmsg rmsg : Message)
    (hnb : ∀ m ∈ b.payload.metrics, m.nameStr ≠ "bdSeq")
    (h1 : (n0.connect t0).publish_birth b = .ok (n2, bmsg))
    (h2 : n2.rebirth t1 = .ok (n3, rmsg)) :
    rmsg.payload.bdSeqOf = bmsg.payload.bdSeqOf.map (fun x => x + 1)
    ∧ n3.bd_seq_num = n2.bd_seq_num + 1
    ∧ n3.seq_num = 0
    ∧ rmsg.payload.seq = some 0 := by
  have hpres : bdSeqPresent b.payload.metrics = false := by
    unfold bdSeqPresent
    simp only [List.any_eq_false, decide_eq_true_eq]
    exact hnb
  have hfind : b.payload.metrics.find? (fun m => m.nameStr = "bdSeq") = none := by
    rw [List.find?_eq_none]
    intro m hm
    simp only [decide_eq_true_eq]
    exact hnb m hm
  have hrun : (n0.connect t0).publish_birth b = Except.ok
      (({ (n0.connect t0) with
          last_birth_payload := some ({ b.payload with
            seq := some 0
            metrics := b.payload.metrics ++
              [{ name := some "bdSeq", datatype := some dtUInt64,
                 longValue := some (n0.bd_seq_num + 1) }] })
          seq_num := 0 } : EdgeNode),
       ({ topic := { group_id := n0.config.group_id, message_type := .NBIRTH,
                     edge_node_id := n0.config.edge_node_id, device_id := "" }
          payload := { b.payload with
            seq := some 0
            metrics := b.payload.metrics ++
              [{ name := some "bdSeq", datatype := some dtUInt64,
                 longValue := some (n0.bd_seq_num + 1) }] }
          qos := n0.config.data_qos, retain := false } : Message)) := by
    unfold EdgeNode.publish_birth EdgeNode.connect
    simp [PayloadBuilder.set_seq, PayloadBuilder.build, hpres]
  rw [hrun] at h1
  injection h1 with hpair
  rw [Prod.mk.injEq] at hpair
  obtain ⟨he1, he2⟩ := hpair
  subst he1
  subst he2
  have hset := setFirstBdSeqLong_append b.payload.metrics
    { name := some "bdSeq", datatype := some dtUInt64,
      longValue := some (n0.bd_seq_num + 1) }
    (n0.bd_seq_num + 1 + 1) hnb rfl
  have hrun2 : EdgeNode.rebirth
      ({ (n0.connect t0) with
          last_birth_payload := some ({ b.payload with
            seq := some 0
            metrics := b.payload.metrics ++
              [{ name := some "bdSeq", datatype := some dtUInt64,
                 longValue := some (n0.bd_seq_num + 1) }] })
          seq_num := 0 } : EdgeNode) t1 = Except.ok
      (({ n0 with
          has_client := true
          seq_num := 0
          bd_seq_num := n0.bd_seq_num + 1 + 1
          death_payload := ((PayloadBuilder.create t1).add_metric_u64 t1 "bdSeq"
            (n0.bd_seq_num + 1 + 1)).build
          last_birth_payload := some ({ b.payload with
            seq := some 0
            metrics := b.payload.metrics ++
              [{ name := some "bdSeq", datatype := some dtUInt64,
                 longValue := some (n0.bd_seq_num + 1 + 1) }] })
          is_connected := true } : EdgeNode),
       ({ topic := { group_id := n0.config.group_id, message_type := .NBIRTH,
                     edge_node_id := n0.config.edge_node_id, device_id := "" }
          payload := { b.payload with
            seq := some 0
            metrics := b.payload.metrics ++
              [{ name := some "bdSeq", datatype := some dtUInt64,
                 longValue := some (n0.bd_seq_num + 1 + 1) }] }
          qos := n0.config.data_qos, retain := false } : Message)) := by
    unfold EdgeNode.rebirth EdgeNode.disconnect EdgeNode.connect
    simp [hset, PayloadBuilder.create, PayloadBuilder.add_metric_u64,
      PayloadBuilder.build]
  rw [hrun2] at h2
  injection h2 with hpair2
  rw [Prod.mk.injEq] at hpair2
  obtain ⟨he3, he4⟩ := hpair2
  subst he3
  subst he4
  refine ⟨?_, rfl, rfl, rfl⟩
  unfold Payload.bdSeqOf
  rw [List.find?_append, List.find?_append, hfind]
  rfl

/-- C3 witness: the trace evaluated from a fresh node, caller payload with no
bdSeq; the existence of the successful birth and rebirth results is computed. -/
theorem rebirth_increments_bdseq_witness :
    (∀ m ∈ (PayloadBuilder.create 0).payload.metrics, m.nameStr ≠ "bdSeq")
    ∧ ∃ n2 n3 bmsg rmsg,
        ((freshNode "G" "N").connect 0).publish_birth (PayloadBuilder.create 0)
          = .ok (n2, bmsg)
        ∧ n2.rebirth 1 = .ok (n3, rmsg)
        ∧ (rmsg.payload.bdSeqOf = bmsg.payload.bdSeqOf.map (fun x => x + 1)
            ∧ n3.bd_seq_num = n2.bd_seq_num + 1
            ∧ n3.seq_num = 0
            ∧ rmsg.payload.seq = some 0) := by
  have h := rebirth_increments_bdseq (freshNode "G" "N") (PayloadBuilder.create 0)
    0 1 _ _ _ _ (by decide) rfl rfl
  exact ⟨by decide, _, _, _, _, rfl, rfl, h⟩

/-! ## NDATA sequence wrap (C7) -/

theorem publish_birth_ok_state (n : EdgeNode) (b : PayloadBuilder)
    (n1 : EdgeNode) (m : Message) (h : n.publish_birth b = .ok (n1, m)) :
    n1.seq_num = 0 ∧ n1.is_connected = true := by
  unfold EdgeNode.publish_birth at h
  cases hc : n.is_connected with
  | false => rw [hc] at h; simp at h
  | true =>
    rw [hc] at h
    simp only [Bool.not_true, Bool.false_eq_true, if_false, Except.ok.injEq,
      Prod.mk.injEq] at h
    obtain ⟨h1, _⟩ := h
    rw [← h1]
    exact ⟨rfl, rfl⟩

theorem publish_data_run (n : EdgeNode) (b : PayloadBuilder)
    (hc : n.is_connected = true) (hs : b.has_seq = false) :
    n.publish_data b = Except.ok
      (({ n with seq_num := (n.seq_num + 1) % SEQ_NUMBER_MAX } : EdgeNode),
       ({ topic := { group_id := n.config.group_id, message_type := .NDATA,
                     edge_node_id := n.config.edge_node_id, device_id := "" }
          payload := { b.payload with seq := some ((n.seq_num + 1) % SEQ_NUMBER_MAX) }
          qos := n.config.data_qos, retain := false } : Message)) := by
  unfold EdgeNode.publish_data
  rw [hc]
  simp [hs, PayloadBuilder.set_seq, PayloadBuilder.build]

theorem iterData_spec (now : Nat) (n : EdgeNode) (hc : n.is_connected = true)
    (h0 : n.seq_num = 0) :
    ∀ N, iterData now n N
      = ({ n with seq_num := N % SEQ_NUMBER_MAX },
         if N = 0 then none else some (N % SEQ_NUMBER_MAX)) := by
  intro N
  induction N with
  | zero =>
    show (n, none) = _
    have he : ({ n with seq_num := 0 % SEQ_NUMBER_MAX } : EdgeNode) = n := by
      rw [show (0 % SEQ_NUMBER_MAX) = 0 from rfl, ← h0]
    rw [he]
    rfl
  | succ k ih =>
    have hmod : ((k % SEQ_NUMBER_MAX) + 1) % SEQ_NUMBER_MAX
        = (k + 1) % SEQ_NUMBER_MAX := by
      unfold SEQ_NUMBER_MAX
      omega
    have hstep : iterData now n (k + 1)
        = stepData now (iterData now n k) := rfl
    rw [hstep, ih]
    unfold stepData
    dsimp only
    rw [publish_data_run ({ n with seq_num := k % SEQ_NUMBER_MAX } : EdgeNode)
      (PayloadBuilder.create now) hc rfl]
    dsimp only
    rw [hmod]
    simp

/-- C7: after any successful `publish_birth` the internal counter reads 0, and N
subsequent `publish_data` calls on fresh builders (the caller never sets seq)
leave the internal counter at N mod 256 and stamp the N-th NDATA with
N mod 256 — in particular the 256th NDATA carries seq 0. -/
theorem ndata_seq_wrap (n : EdgeNode) (b : PayloadBuilder)
    (n1 : EdgeNode) (m : Message) (h1 : n.publish_birth b = .ok (n1, m)) :
    n1.seq_num = 0
    ∧ ∀ now N, (iterData now n1 N).1.seq_num = N % SEQ_NUMBER_MAX
        ∧ (0 < N → (iterData now n1 N).2 = some (N % SEQ_NUMBER_MAX)) := by
  obtain ⟨h0, hc⟩ := publish_birth_ok_state n b n1 m h1
  refine ⟨h0, fun now N => ?_⟩
  have hs := iterData_spec now n1 hc h0 N
  rw [hs]
  refine ⟨rfl, fun hN => ?_⟩
  rw [if_neg (Nat.pos_iff_ne_zero.mp hN)]

/-- C7 witness: the wrap property instantiated on a freshly connected node whose
birth succeeded. -/
theorem ndata_seq_wrap_witness :
    ∃ n1 m, ((freshNode "G" "N").connect 0).publish_birth (PayloadBuilder.create 0)
        = .ok (n1, m)
      ∧ n1.seq_num = 0
      ∧ ∀ now N, (iterData now n1 N).1.seq_num = N % SEQ_NUMBER_MAX
          ∧ (0 < N → (iterData now n1 N).2 = some (N % SEQ_NUMBER_MAX)) :=
  ⟨_, _, rfl,
    ndata_seq_wrap ((freshNode "G" "N").connect 0) (PayloadBuilder.create 0) _ _ rfl⟩

/-! ## Device registry lemmas and device lifecycle (C9) -/

theorem findDevice_updateDevice (l : List (String × DeviceState)) (k : String)
    (f : DeviceState → DeviceState) :
    findDevice (updateDevice l k f) k = (findDevice l k).map f := by
  induction l with
  | nil => rfl
  | cons hd t ih =>
    by_cases h : hd.1 = k
    · simp [updateDevice, findDevice, List.find?_cons, h]
    · have hdec : (decide (hd.1 = k)) = false := decide_eq_false h
      simp only [updateDevice, findDevice, List.map_cons, if_neg h,
        List.find?_cons, hdec] at ih ⊢
      exact ih

theorem findDevice_map_replace (l : List (String × DeviceState)) (k : String)
    (v : DeviceState)
    (hp : (l.find? (fun p => p.1 = k)).isSome = true) :
    findDevice (l.map (fun p => if p.1 = k then (k, v) else p)) k = some v := by
  induction l with
  | nil => simp at hp
  | cons hd t ih =>
    by_cases h : hd.1 = k
    · simp [findDevice, List.find?_cons, h]
    · have hdec : (decide (hd.1 = k)) = false := decide_eq_false h
      simp only [List.find?_cons, hdec] at hp
      simp only [findDevice, List.map_cons, if_neg h, List.find?_cons, hdec]
      exact ih hp

theorem findDevice_setDevice (l : List (String × DeviceState)) (k : String)
    (v : DeviceState) :
    findDevice (setDevice l k v) k = some v := by
  unfold setDevice
  by_cases hp : (l.find? (fun p => p.1 = k)).isSome
  · rw [if_pos hp]
    exact findDevice_map_replace l k v hp
  · rw [if_neg hp]
    have hn : l.find? (fun p => p.1 = k) = none := by
      cases hx : l.find? (fun p => p.1 = k) with
      | none => rfl
      | some w => rw [hx] at hp; simp at hp
    unfold findDevice
    rw [List.find?_append, hn]
    simp [List.find?_cons]

/-- C9: after a successful `publish_device_death`, the device's registry entry is
retained with `is_online = false`; every `publish_device_data` for that device
then errors; a subsequent `publish_device_birth` succeeds, resets the device's
counter to 0 and marks it online, after which `publish_device_data` succeeds
again. -/
theorem device_death_blocks_data (n : EdgeNode) (d : String) (now : Nat)
    (ds : DeviceState) (pb : Payload)
    (hc : n.is_connected = true)
    (hpb : n.last_birth_payload = some pb)
    (hd : findDevice n.device_states d = some ds) :
    ∃ n1 dm, n.publish_device_death d now = Except.ok (n1, dm)
      ∧ dm.topic.message_type = .DDEATH
      ∧ findDevice n1.device_states d = some { ds with is_online := false }
      ∧ (∀ b, n1.publish_device_data d b
          = Except.error ("Must publish DBIRTH for device '" ++ d ++ "' before DDATA"))
      ∧ ∀ b, ∃ n2 bm, n1.publish_device_birth d b = Except.ok (n2, bm)
          ∧ findDevice n2.device_states d
              = some { seq_num := 0, last_birth_payload := some (b.set_seq 0).build,
                       is_online := true }
          ∧ ∀ b2, (n2.publish_device_data d b2).isOk = true := by
  have hrun : n.publish_device_death d now = Except.ok
      (({ n with device_states :=
            updateDevice n.device_states d (fun x => { x with is_online := false }) }
         : EdgeNode),
       ({ topic := { group_id := n.config.group_id, message_type := .DDEATH,
                     edge_node_id := n.config.edge_node_id, device_id := d }
          payload := (PayloadBuilder.create now).build
          qos := n.config.data_qos, retain := false } : Message)) := by
    unfold EdgeNode.publish_device_death
    rw [hc]
    simp [hd]
  have hfind1 : findDevice
      (updateDevice n.device_states d (fun x => { x with is_online := false })) d
      = some { ds with is_online := false } := by
    rw [findDevice_updateDevice, hd]
    rfl
  refine ⟨_, _, hrun, rfl, hfind1, ?_, ?_⟩
  · intro b
    unfold EdgeNode.publish_device_data
    simp [hc, hfind1]
  · intro b
    have hrun2 : EdgeNode.publish_device_birth
        ({ n with device_states :=
             updateDevice n.device_states d (fun x => { x with is_online := false }) }
          : EdgeNode) d b = Except.ok
        (({ n with
            device_states := setDevice (updateDevice n.device_states d
                (fun x => { x with is_online := false })) d
              ({ seq_num := 0, last_birth_payload := some (b.set_seq 0).build,
                 is_online := true }) } : EdgeNode),
         ({ topic := { group_id := n.config.group_id, message_type := .DBIRTH,
                       edge_node_id := n.config.edge_node_id, device_id := d }
            payload := (b.set_seq 0).build
            qos := n.config.data_qos, retain := false } : Message)) := by
      unfold EdgeNode.publish_device_birth
      simp [hc, hpb]
    have hfind2 : findDevice (setDevice
        (updateDevice n.device_states d (fun x => { x with is_online := false })) d
        ({ seq_num := 0, last_birth_payload := some (b.set_seq 0).build,
           is_online := true })) d
        = some { seq_num := 0, last_birth_payload := some (b.set_seq 0).build,
                 is_online := true } :=
      findDevice_setDevice _ _ _
    refine ⟨_, _, hrun2, hfind2, ?_⟩
    intro b2
    unfold EdgeNode.publish_device_data
    simp [hc, hfind2, Except.isOk, Except.toBool]

/-- C9 witness: the lifecycle evaluated on a concrete node with one device born
after the node's birth. -/
theorem device_death_blocks_data_witness :
    ∃ nb d1 m1 m2,
      ((freshNode "G" "N").connect 0).publish_birth (PayloadBuilder.create 0)
        = .ok (nb, m1)
      ∧ nb.publish_device_birth "D" (PayloadBuilder.create 0) = .ok (d1, m2)
      ∧ d1.is_connected = true
      ∧ d1.last_birth_payload = some m1.payload
      ∧ findDevice d1.device_states "D"
          = some { seq_num := 0,
                   last_birth_payload := some ((PayloadBuilder.create 0).set_seq 0).build,
                   is_online := true }
      ∧ ∃ n1 dm, d1.publish_device_death "D" 5 = Except.ok (n1, dm)
          ∧ dm.topic.message_type = .DDEATH
          ∧ findDevice n1.device_states "D"
              = some { seq_num := 0,
                       last_birth_payload := some ((PayloadBuilder.create 0).set_seq 0).build,
                       is_online := false }
          ∧ (∀ b, n1.publish_device_data "D" b
              = Except.error ("Must publish DBIRTH for device '" ++ "D" ++ "' before DDATA"))
          ∧ ∀ b, ∃ n2 bm, n1.publish_device_birth "D" b = Except.ok (n2, bm)
              ∧ findDevice n2.device_states "D"
                  = some { seq_num := 0, last_birth_payload := some (b.set_seq 0).build,
                           is_online := true }
              ∧ ∀ b2, (n2.publish_device_data "D" b2).isOk = true := by
  refine ⟨_, _, _, _, rfl, rfl, rfl, rfl, by decide, ?_⟩
  exact device_death_blocks_data _ "D" 5
    ({ seq_num := 0,
       last_birth_payload := some ((PayloadBuilder.create 0).set_seq 0).build,
       is_online := true })
    ({ timestamp := some 0, seq := some 0,
       metrics := [{ name := some "bdSeq", datatype := some dtUInt64,
                     longValue := some 1 }] })
    rfl rfl (by decide)

/-! ## Builder timestamp (C10) -/

/-- C10: the `PayloadBuilder` constructor stamps the wall-clock time into the
payload-level timestamp, and every payload serialized by `build` after any
sequence of caller operations carries a set timestamp, even when the caller
never invoked `set_timestamp`. -/
theorem build_timestamp_always_set (now : Nat) (ops : List BuilderOp) :
    (PayloadBuilder.create now).payload.timestamp = some now
    ∧ ((applyOps now (PayloadBuilder.create now) ops).build).timestamp.isSome = true := by
  refine ⟨rfl, ?_⟩
  have key : ∀ (l : List BuilderOp) (b : PayloadBuilder),
      b.payload.timestamp.isSome = true →
      ((applyOps now b l).build).timestamp.isSome = true := by
    intro l
    induction l with
    | nil => intro b hb; exact hb
    | cons op t ih =>
      intro b hb
      have hstep : (applyOp now b op).payload.timestamp.isSome = true := by
        cases op with
        | addU64 name v a ts => exact hb
        | setSeq v => exact hb
        | setTs t2 => rfl
      exact ih _ hstep
  exact key ops _ rfl

/-! ## Observer alias tables (C4) -/

theorem findNode_map_replace (l : List ((String × String) × SubNodeState))
    (k : String × String) (v : SubNodeState)
    (hp : (l.find? (fun p => p.1 = k)).isSome = true) :
    findNode (l.map (fun p => if p.1 = k then (k, v) else p)) k = some v := by
  induction l with
  | nil => simp at hp
  | cons hd t ih =>
    by_cases h : hd.1 = k
    · simp [findNode, List.find?_cons, h]
    · have hdec : (decide (hd.1 = k)) = false := decide_eq_false h
      simp only [List.find?_cons, hdec] at hp
      simp only [findNode, List.map_cons, if_neg h, List.find?_cons, hdec]
      exact ih hp

theorem findNode_setNode (l : List ((String × String) × SubNodeState))
    (k : String × String) (v : SubNodeState) :
    findNode (setNode l k v) k = some v := by
  unfold setNode
  by_cases hp : (l.find? (fun p => p.1 = k)).isSome
  · rw [if_pos hp]
    exact findNode_map_replace l k v hp
  · rw [if_neg hp]
    have hn : l.find? (fun p => p.1 = k) = none := by
      cases hx : l.find? (fun p => p.1 = k) with
      | none => rfl
      | some w => rw [hx] at hp; simp at hp
    unfold findNode
    rw [List.find?_append, hn]
    simp [List.find?_cons]

theorem findSubDevice_map_replace (l : List (String × SubDeviceState))
    (k : String) (v : SubDeviceState)
    (hp : (l.find? (fun p => p.1 = k)).isSome = true) :
    findSubDevice (l.map (fun p => if p.1 = k then (k, v) else p)) k = some v := by
  induction l with
  | nil => simp at hp
  | cons hd t ih =>
    by_cases h : hd.1 = k
    · simp [findSubDevice, List.find?_cons, h]
    · have hdec : (decide (hd.1 = k)) = false := decide_eq_false h
      simp only [List.find?_cons, hdec] at hp
      simp only [findSubDevice, List.map_cons, if_neg h, List.find?_cons, hdec]
      exact ih hp

theorem findSubDevice_setSubDevice (l : List (String × SubDeviceState))
    (k : String) (v : SubDeviceState) :
    findSubDevice (setSubDevice l k v) k = some v := by
  unfold setSubDevice
  by_cases hp : (l.find? (fun p => p.1 = k)).isSome
  · rw [if_pos hp]
    exact findSubDevice_map_replace l k v hp
  · rw [if_neg hp]
    have hn : l.find? (fun p => p.1 = k) = none := by
      cases hx : l.find? (fun p => p.1 = k) with
      | none => rfl
      | some w => rw [hx] at hp; simp at hp
    unfold findSubDevice
    rw [List.find?_append, hn]
    simp [List.find?_cons]

theorem lookupAlias_aliasTable_none (ms : List Metric) (a : Nat)
    (h : ∀ m ∈ ms, m.aliasNum ≠ some a) :
    lookupAlias (aliasTable ms) a = none := by
  unfold lookupAlias
  rw [List.find?_eq_none.mpr]
  · rfl
  · intro x hx
    unfold aliasTable at hx
    rw [List.mem_filterMap] at hx
    obtain ⟨m, hm, hfm⟩ := hx
    cases ha : m.aliasNum with
    | none => rw [ha] at hfm; simp at hfm
    | some a2 =>
      cases hnm : m.name with
      | none => rw [ha, hnm] at hfm; simp at hfm
      | some nm =>
        rw [ha, hnm] at hfm
        simp only [Option.some.injEq] at hfm
        rw [← hfm]
        have := h m hm
        rw [ha] at this
        simp only [decide_eq_true_eq]
        intro hcontra
        exact this (by rw [hcontra])

/-- C4 (spec-modelled): after the observer processes an NBIRTH (seq 0, bdSeq
present), `get_metric_name(group, node, "", alias)` resolves every alias through
the table built from exactly the metrics of that latest birth carrying both name
and alias — in particular an alias not declared there resolves to nothing — and
after a subsequent DBIRTH the same holds at device granularity. -/
theorem get_metric_name_from_birth (s : Subscriber) (g e d : String)
    (p1 p2 : Payload)
    (hd : d ≠ "")
    (hseq1 : p1.seq = some 0)
    (hbd1 : p1.bdSeqOf.isSome = true) :
    (∀ a, (s.process_birth
          { group_id := g, message_type := .NBIRTH, edge_node_id := e, device_id := "" }
          p1).get_metric_name g e "" a
        = lookupAlias (aliasTable p1.metrics) a)
    ∧ (∀ a, (∀ m ∈ p1.metrics, m.aliasNum ≠ some a) →
        (s.process_birth
          { group_id := g, message_type := .NBIRTH, edge_node_id := e, device_id := "" }
          p1).get_metric_name g e "" a = none)
    ∧ (∀ a, ((s.process_birth
          { group_id := g, message_type := .NBIRTH, edge_node_id := e, device_id := "" }
          p1).process_birth
          { group_id := g, message_type := .DBIRTH, edge_node_id := e, device_id := d }
          p2).get_metric_name g e d a
        = lookupAlias (aliasTable p2.metrics) a) := by
  obtain ⟨bd, hbd⟩ : ∃ bd, p1.bdSeqOf = some bd := by
    cases hx : p1.bdSeqOf with
    | none => rw [hx] at hbd1; simp at hbd1
    | some w => exact ⟨w, rfl⟩
  have hcond : ¬(p1.seq.isSome ∧ p1.seq ≠ some 0) := by
    simp [hseq1]
  have hres1 : ∀ a, (s.process_birth
      { group_id := g, message_type := .NBIRTH, edge_node_id := e, device_id := "" }
      p1).get_metric_name g e "" a = lookupAlias (aliasTable p1.metrics) a := by
    intro a
    unfold Subscriber.process_birth
    dsimp only
    rw [if_neg hcond, hbd]
    unfold Subscriber.get_metric_name
    dsimp only
    rw [findNode_setNode]
    simp
  refine ⟨hres1, fun a ha => ?_, fun a => ?_⟩
  · rw [hres1 a]
    exact lookupAlias_aliasTable_none _ _ ha
  · unfold Subscriber.process_birth
    dsimp only
    rw [if_neg hcond, hbd]
    dsimp only
    rw [findNode_setNode]
    dsimp only
    simp only [Bool.not_true, Bool.false_eq_true, if_false]
    unfold Subscriber.get_metric_name
    rw [findNode_setNode]
    dsimp only
    rw [if_neg hd, findSubDevice_setSubDevice]

/-- C4 witness: a fresh observer sees an NBIRTH declaring `Temperature` with
alias 1 (plus the bdSeq metric), then a DBIRTH declaring `Pressure` with alias
2; the resolution properties are instantiated there, and concrete lookups
evaluate to the declared names (and to nothing for an undeclared alias). -/
theorem get_metric_name_from_birth_witness :
    (let p1 : Payload := { timestamp := some 7
                           seq := some 0
                           metrics := [{ name := some "bdSeq"
                                         datatype := some dtUInt64
                                         longValue := some 1 },
                                       { name := some "Temperature"
                                         aliasNum := some 1
                                         datatype := some dtUInt64
                                         longValue := some 20 }] }
     let p2 : Payload := { timestamp := some 8
                           seq := some 0
                           metrics := [{ name := some "Pressure"
                                         aliasNum := some 2
                                         datatype := some dtUInt64
                                         longValue := some 30 }] }
     let t1 : Topic := { group_id := "Energy"
                         message_type := .NBIRTH
                         edge_node_id := "Gateway01"
                         device_id := "" }
     let t2 : Topic := { group_id := "Energy"
                         message_type := .DBIRTH
                         edge_node_id := "Gateway01"
                         device_id := "Dev" }
     ("Dev" : String) ≠ ""
     ∧ p1.seq = some 0
     ∧ p1.bdSeqOf.isSome = true
     ∧ ((∀ a, (Subscriber.process_birth {} t1 p1).get_metric_name
            "Energy" "Gateway01" "" a = lookupAlias (aliasTable p1.metrics) a)
        ∧ (∀ a, (∀ m ∈ p1.metrics, m.aliasNum ≠ some a) →
            (Subscriber.process_birth {} t1 p1).get_metric_name
              "Energy" "Gateway01" "" a = none)
        ∧ (∀ a, ((Subscriber.process_birth {} t1 p1).process_birth t2 p2).get_metric_name
              "Energy" "Gateway01" "Dev" a = lookupAlias (aliasTable p2.metrics) a))
     ∧ (Subscriber.process_birth {} t1 p1).get_metric_name "Energy" "Gateway01" "" 1
         = some "Temperature"
     ∧ ((Subscriber.process_birth {} t1 p1).process_birth t2 p2).get_metric_name
         "Energy" "Gateway01" "Dev" 2 = some "Pressure"
     ∧ (Subscriber.process_birth {} t1 p1).get_metric_name "Energy" "Gateway01" "" 9
         = none) :=
  ⟨by decide, rfl, rfl,
   get_metric_name_from_birth {} "Energy" "Gateway01" "Dev"
     ({ timestamp := some 7
        seq := some 0
        metrics := [{ name := some "bdSeq"
                      datatype := some dtUInt64
                      longValue := some 1 },
                    { name := some "Temperature"
                      aliasNum := some 1
                      datatype := some dtUInt64
                      longValue := some 20 }] })
     ({ timestamp := some 8
        seq := some 0
        metrics := [{ name := some "Pressure"
                      aliasNum := some 2
                      datatype := some dtUInt64
                      longValue := some 30 }] })
     (by decide) rfl rfl,
   by decide, by decide, by decide⟩

end Sparkplug
